import Mathlib

/-!
Shallow embedding of the monitoring engine of `protopixel-sys-monitor`
(`src/monitoring/service.py`, `src/monitoring/models.py`), together with
theorems settling the specification claims about it.

Modelling conventions:
* instants (`datetime`) are integers counting seconds; `timedelta(hours=h)`
  is `3600 * h` seconds;
* response times are `Option Int` (only their presence matters here);
* the Python dict `status_history : Dict[str, List[StatusCheck]]` is an
  insertion-ordered association list with the helpers `histGet`, `histSet`,
  `histContains`;
* methods that mutate `self` become functions from the service state to a new
  service state; a statement that can raise (`self.status_history[name]` on a
  missing key) returns `Except String _` with a `"KeyError"` error;
* network and file I/O (`aiohttp`, CSV writing, reading `config.json`) is
  abstracted: a probe's outcome is a `ProbeOutcome` value handed to
  `check_url`, the parsed config file is a `Config` value handed to
  `load_config`, and the CSV writes of `save_monitoring_result` are omitted
  (they do not touch the engine state).
-/

/-- `URLStatus` enum from `models.py`. -/
inductive URLStatus where
  | up
  | down
  | unknown
deriving DecidableEq, Repr

/-- `StatusCheck` model from `models.py`: one check result. -/
structure StatusCheck where
  timestamp : Int
  status : URLStatus
  response_time : Option Int := none
  error : Option String := none
deriving DecidableEq, Repr

/-- `URLConfig` model from `models.py`: one monitored endpoint. -/
structure URLConfig where
  name : String
  url : String
deriving DecidableEq, Repr

/-- `MonitoringConfig` model from `models.py`. -/
structure MonitoringConfig where
  check_interval_seconds : Int
  timeout_seconds : Int
  history_retention_hours : Int
deriving DecidableEq, Repr

/-- `Config` model from `models.py`. -/
structure Config where
  urls : List URLConfig
  monitoring : MonitoringConfig
deriving DecidableEq, Repr

/-- `URLStatusResponse` model from `models.py`. -/
structure URLStatusResponse where
  name : String
  url : String
  current_status : URLStatus
  last_check : Int
  response_time : Option Int := none
  error : Option String := none
deriving DecidableEq, Repr

/-- `URLHistoryResponse` model from `models.py`. -/
structure URLHistoryResponse where
  name : String
  url : String
  history : List StatusCheck
deriving DecidableEq, Repr

/-- The history store: Python's insertion-ordered `Dict[str, List[StatusCheck]]`. -/
abbrev HistStore := List (String × List StatusCheck)

/-- Dict membership test (`name in self.status_history`). -/
def histContains : HistStore → String → Bool
  | [], _ => false
  | (k, _) :: t, n => k == n || histContains t n

/-- Dict lookup (`self.status_history[name]`, as an `Option`). -/
def histGet : HistStore → String → Option (List StatusCheck)
  | [], _ => none
  | (k, w) :: t, n => if k == n then some w else histGet t n

/-- Dict assignment (`self.status_history[name] = v`): replaces the value at an
existing key in place, otherwise appends a new key at the end. -/
def histSet : HistStore → String → List StatusCheck → HistStore
  | [], n, v => [(n, v)]
  | (k, w) :: t, n, v => if k == n then (n, v) :: t else (k, w) :: histSet t n v

/-- In-memory state of `MonitoringService` (`service.py` lines 20-25); the
`config_path` string is dropped since file I/O is abstracted, and `config` is
taken as already loaded wherever the claims use it. -/
structure MonitoringService where
  config : Config
  status_history : HistStore
  running : Bool
deriving DecidableEq, Repr

/-- `MonitoringService.load_config` (`service.py` lines 27-36): store the
parsed config, then initialize an empty history list for each configured URL
name that does not already have one. The parsed file content is the
`config_data` argument. -/
def load_config (s : MonitoringService) (config_data : Config) : MonitoringService :=
  { s with
    config := config_data,
    status_history :=
      config_data.urls.foldl
        (fun h u => if histContains h u.name then h else histSet h u.name []) s.status_history }

/-- `MonitoringService.cleanup_history` (`service.py` lines 38-48): return
unchanged if the name has no history entry; otherwise keep exactly the checks
with `timestamp > now - retention_hours`. `datetime.now()` is the `now`
argument. -/
def cleanup_history (s : MonitoringService) (url_name : String) (now : Int) : MonitoringService :=
  if histContains s.status_history url_name then
    { s with
      status_history :=
        histSet s.status_history url_name
          (((histGet s.status_history url_name).getD []).filter
            (fun check =>
              decide (now - 3600 * s.config.monitoring.history_retention_hours < check.timestamp))) }
  else s

/-- Outcome of the single HTTP GET issued by `check_url`: a response with a
status code and an elapsed time, an `asyncio.TimeoutError`, or any other
exception with its stringified message. -/
inductive ProbeOutcome where
  | response (status : Nat) (elapsed : Int)
  | timeout
  | failure (message : String)
deriving DecidableEq, Repr

/-- `MonitoringService.check_url` (`service.py` lines 50-79): classify one
probe outcome into a `StatusCheck`. `start_time` is `datetime.now()` taken at
entry; every branch of the Python function returns a `StatusCheck` (each
`except` arm returns rather than re-raising), so the embedding is a total
function. -/
def check_url (start_time : Int) (outcome : ProbeOutcome) : StatusCheck :=
  match outcome with
  | .response status elapsed =>
      if status < 400 then
        { timestamp := start_time, status := .up, response_time := some elapsed }
      else
        { timestamp := start_time, status := .down, response_time := some elapsed,
          error := some ("HTTP " ++ toString status) }
  | .timeout =>
      { timestamp := start_time, status := .down, error := some "Timeout" }
  | .failure message =>
      { timestamp := start_time, status := .down, error := some message }

/-- One iteration of the per-result body of `monitor_urls`'s fan-in loop
(`service.py` lines 91-96): `self.status_history[url_config.name].append(result)`
— a `KeyError` if the name has no history entry — followed by
`cleanup_history`. The CSV side effect of `save_monitoring_result` is omitted. -/
def record_result (s : MonitoringService) (name : String) (result : StatusCheck) (now : Int) :
    Except String MonitoringService :=
  match histGet s.status_history name with
  | none => .error "KeyError"
  | some w =>
      .ok (cleanup_history
        { s with status_history := histSet s.status_history name (w ++ [result]) } name now)

/-- The fan-in phase of one `monitor_urls` cycle (`service.py` lines 88-96):
`zip(self.config.urls, results)` pairs the *current* URL list with the result
list produced at fan-out, then records each pair in order. Like Python's
`zip`, `List.zip` truncates to the shorter list. -/
def monitor_cycle (s : MonitoringService) (results : List StatusCheck) (now : Int) :
    Except String MonitoringService :=
  (s.config.urls.zip results).foldlM
    (fun acc p => record_result acc p.1.name p.2 now) s

/-- `MonitoringService.get_url_status` (`service.py` lines 100-123).
`datetime.now()` in the empty-history branch is the `now` argument. Note: this
function does not call `cleanup_history`. -/
def get_url_status (s : MonitoringService) (name : String) (now : Int) :
    Option URLStatusResponse :=
  match s.config.urls.find? (fun u => u.name == name) with
  | none => none
  | some url_config =>
      match histGet s.status_history name with
      | none => none
      | some history =>
          match history.getLast? with
          | none =>
              some { name := name, url := url_config.url, current_status := .unknown,
                     last_check := now }
          | some latest =>
              some { name := name, url := url_config.url, current_status := latest.status,
                     last_check := latest.timestamp, response_time := latest.response_time,
                     error := latest.error }

/-- `MonitoringService.get_url_history` (`service.py` lines 125-136): returns
the possibly-mutated service state (it runs `cleanup_history` before reading)
together with the optional response. -/
def get_url_history (s : MonitoringService) (name : String) (now : Int) :
    MonitoringService × Option URLHistoryResponse :=
  match s.config.urls.find? (fun u => u.name == name) with
  | none => (s, none)
  | some url_config =>
      match histGet s.status_history name with
      | none => (s, none)
      | some _ =>
          let s' := cleanup_history s name now
          (s', some { name := name, url := url_config.url,
                      history := (histGet s'.status_history name).getD [] })

/-- Modelled from the spec: the `^https?://` URL pattern of `URLConfig`
(`models.py` line 23) — the URL must start with the `http://` or `https://`
scheme. -/
def validUrl (url : String) : Bool :=
  decide (url.data.take 7 = "http://".data) || decide (url.data.take 8 = "https://".data)

/-- Modelled from the spec: `MonitoringService.add_url_monitor` is called by
`routes.py` (`create_monitor`) and by the tests but its implementation is not
among the provided source files. Per spec §4.1/§7: fail with a duplicate-name
error if the name is already present (leaving the state unchanged), fail with
a validation error if the URL does not match `^https?://` (leaving the state
unchanged), otherwise append the endpoint to the registry and create an empty
history window for it. Persisting the config file is abstracted away. -/
def add_url_monitor (s : MonitoringService) (name url : String) :
    MonitoringService × Except String URLConfig :=
  if s.config.urls.any (fun u => u.name == name) then
    (s, .error ("URL monitor with name " ++ name ++ " already exists"))
  else if validUrl url then
    ({ s with
       config := { s.config with urls := s.config.urls ++ [{ name := name, url := url }] },
       status_history := histSet s.status_history name [] },
     .ok { name := name, url := url })
  else
    (s, .error "ValidationError")

/-! ### Helper lemmas about the history store and state-preservation -/

theorem histGet_histSet_self (h : HistStore) (n : String) (v : List StatusCheck) :
    histGet (histSet h n v) n = some v := by
  induction h with
  | nil => simp [histSet, histGet]
  | cons p t ih =>
      obtain ⟨k, w⟩ := p
      by_cases hk : k = n
      · subst hk; simp [histSet, histGet]
      · simp [histSet, histGet, hk, ih]

theorem histGet_histSet_ne (h : HistStore) (n m : String) (v : List StatusCheck)
    (hnm : n ≠ m) : histGet (histSet h n v) m = histGet h m := by
  induction h with
  | nil => simp [histSet, histGet, hnm]
  | cons p t ih =>
      obtain ⟨k, w⟩ := p
      by_cases hk : k = n
      · subst hk; simp [histSet, histGet, hnm]
      · simp [histSet, histGet, hk, ih]

theorem histContains_eq_isSome (h : HistStore) (n : String) :
    histContains h n = (histGet h n).isSome := by
  induction h with
  | nil => simp [histContains, histGet]
  | cons p t ih =>
      obtain ⟨k, w⟩ := p
      by_cases hk : k = n
      · subst hk; simp [histContains, histGet]
      · simp [histContains, histGet, hk, ih]

theorem cleanup_history_config (s : MonitoringService) (n : String) (now : Int) :
    (cleanup_history s n now).config = s.config := by
  unfold cleanup_history
  split <;> rfl

theorem cleanup_history_running (s : MonitoringService) (n : String) (now : Int) :
    (cleanup_history s n now).running = s.running := by
  unfold cleanup_history
  split <;> rfl

/-- Sample monitoring settings used by concrete witnesses (the values of the
test fixture `conftest.py`). -/
def sampleMonitoring : MonitoringConfig :=
  { check_interval_seconds := 60, timeout_seconds := 5, history_retention_hours := 1 }

/-- C9: running `cleanup_history` for a name that has no history window
returns without error and leaves the whole service state — every other
window included — unchanged. -/
theorem C9_cleanup_missing_name_noop (s : MonitoringService) (name : String) (now : Int)
    (h : histContains s.status_history name = false) :
    cleanup_history s name now = s := by
  unfold cleanup_history
  simp [h]

theorem C9_cleanup_missing_name_noop_witness :
    histContains [("a", [])] "b" = false ∧
    cleanup_history
      { config := { urls := [{ name := "a", url := "http://a" }], monitoring := sampleMonitoring },
        status_history := [("a", [])], running := false } "b" 12345 =
      { config := { urls := [{ name := "a", url := "http://a" }], monitoring := sampleMonitoring },
        status_history := [("a", [])], running := false } :=
  ⟨by decide, C9_cleanup_missing_name_noop _ "b" 12345 (by decide)⟩

/-- C5: for a window `w`, eviction at time `now` with retention `R` keeps
exactly the entries with `timestamp > now - R` (equivalently, removes exactly
those with `timestamp ≤ now - R`), in their original order (the kept list is
a sublist of `w`), so every remaining entry's timestamp is strictly greater
than `now - R`. -/
theorem C5_evict_exact (s : MonitoringService) (name : String) (now : Int)
    (w : List StatusCheck) (h : histGet s.status_history name = some w) :
    ∃ kept,
      histGet (cleanup_history s name now).status_history name = some kept ∧
      kept = w.filter (fun c =>
        decide (now - 3600 * s.config.monitoring.history_retention_hours < c.timestamp)) ∧
      kept.Sublist w ∧
      (∀ c, c ∈ kept ↔
        c ∈ w ∧ now - 3600 * s.config.monitoring.history_retention_hours < c.timestamp) := by
  have hc : histContains s.status_history name = true := by
    rw [histContains_eq_isSome, h]
    rfl
  refine ⟨_, ?_, rfl, List.filter_sublist w, ?_⟩
  · unfold cleanup_history
    rw [if_pos hc]
    simp only [h, Option.getD_some]
    exact histGet_histSet_self _ _ _
  · intro c
    simp [List.mem_filter]

theorem C5_evict_exact_witness :
    histGet [("e", [{ timestamp := 0, status := URLStatus.down, error := some "Timeout" },
                    { timestamp := 4000, status := URLStatus.up, response_time := some 1 }])] "e" =
      some [{ timestamp := 0, status := URLStatus.down, error := some "Timeout" },
            { timestamp := 4000, status := URLStatus.up, response_time := some 1 }] ∧
    ∃ kept,
      histGet (cleanup_history
        { config := { urls := [{ name := "e", url := "http://e" }], monitoring := sampleMonitoring },
          status_history :=
            [("e", [{ timestamp := 0, status := URLStatus.down, error := some "Timeout" },
                    { timestamp := 4000, status := URLStatus.up, response_time := some 1 }])],
          running := true } "e" 7000).status_history "e" = some kept ∧
      kept = ([{ timestamp := 0, status := URLStatus.down, error := some "Timeout" },
               { timestamp := 4000, status := URLStatus.up, response_time := some 1 }] :
                List StatusCheck).filter (fun c => decide ((7000 : Int) - 3600 * 1 < c.timestamp)) ∧
      kept.Sublist [{ timestamp := 0, status := URLStatus.down, error := some "Timeout" },
                    { timestamp := 4000, status := URLStatus.up, response_time := some 1 }] ∧
      (∀ c, c ∈ kept ↔
        c ∈ [{ timestamp := 0, status := URLStatus.down, error := some "Timeout" },
             { timestamp := 4000, status := URLStatus.up, response_time := some 1 }] ∧
          (7000 : Int) - 3600 * 1 < c.timestamp) :=
  ⟨by decide, C5_evict_exact _ "e" 7000 _ (by decide)⟩

/-- C6: every `StatusCheck` the checker produces satisfies: status `up`
implies `response_time` present and `error` absent; status `down` implies
`error` present; and the status is never `unknown`. -/
theorem C6_checker_invariant (start : Int) (o : ProbeOutcome) :
    ((check_url start o).status = URLStatus.up →
      (check_url start o).response_time.isSome ∧ (check_url start o).error = none)
    ∧ ((check_url start o).status = URLStatus.down → (check_url start o).error.isSome)
    ∧ (check_url start o).status ≠ URLStatus.unknown := by
  cases o with
  | response st e => by_cases h : st < 400 <;> simp [check_url, h]
  | timeout => simp [check_url]
  | failure m => simp [check_url]

theorem C6_checker_invariant_witness :
    ((check_url 0 (ProbeOutcome.response 200 3)).status = URLStatus.up →
      (check_url 0 (ProbeOutcome.response 200 3)).response_time.isSome ∧
        (check_url 0 (ProbeOutcome.response 200 3)).error = none)
    ∧ ((check_url 0 (ProbeOutcome.response 200 3)).status = URLStatus.down →
      (check_url 0 (ProbeOutcome.response 200 3)).error.isSome)
    ∧ (check_url 0 (ProbeOutcome.response 200 3)).status ≠ URLStatus.unknown :=
  C6_checker_invariant 0 (ProbeOutcome.response 200 3)

/-- C7: the checker is a total function of the probe outcome — it returns a
`StatusCheck` for every outcome and never propagates a fault — and classifies
each case exactly as specified: status `< 400` gives `up` with the elapsed
time; status `≥ 400` gives `down` with error `"HTTP <code>"` and the elapsed
time; a timeout gives `down` with error `"Timeout"` and no response time; any
other failure gives `down` with the stringified reason and no response time. -/
theorem C7_checker_total_classification (start : Int) (st : Nat) (e : Int) (m : String) :
    (st < 400 → check_url start (ProbeOutcome.response st e) =
      { timestamp := start, status := .up, response_time := some e, error := none })
    ∧ (400 ≤ st → check_url start (ProbeOutcome.response st e) =
      { timestamp := start, status := .down, response_time := some e,
        error := some ("HTTP " ++ toString st) })
    ∧ check_url start ProbeOutcome.timeout =
      { timestamp := start, status := .down, response_time := none, error := some "Timeout" }
    ∧ check_url start (ProbeOutcome.failure m) =
      { timestamp := start, status := .down, response_time := none, error := some m } := by
  refine ⟨fun h => ?_, fun h => ?_, rfl, rfl⟩
  · simp [check_url, h]
  · simp [check_url, Nat.not_lt.mpr h]

theorem C7_checker_total_classification_witness :
    ((404 < 400 → check_url 5 (ProbeOutcome.response 404 2) =
      { timestamp := 5, status := .up, response_time := some 2, error := none })
    ∧ (400 ≤ 404 → check_url 5 (ProbeOutcome.response 404 2) =
      { timestamp := 5, status := .down, response_time := some 2,
        error := some ("HTTP " ++ toString 404) })
    ∧ check_url 5 ProbeOutcome.timeout =
      { timestamp := 5, status := .down, response_time := none, error := some "Timeout" }
    ∧ check_url 5 (ProbeOutcome.failure "Cannot connect to host") =
      { timestamp := 5, status := .down, response_time := none,
        error := some "Cannot connect to host" }) :=
  C7_checker_total_classification 5 404 2 "Cannot connect to host"

/-- The value a name maps to after the history-initialization loop of
`load_config`: an existing window is kept as is, otherwise a configured name
gets a fresh empty window, and other names stay absent. -/
theorem load_init_get (urls : List URLConfig) (h : HistStore) (name : String) :
    histGet (urls.foldl
        (fun h u => if histContains h u.name then h else histSet h u.name []) h) name =
      match histGet h name with
      | some w => some w
      | none => if urls.any (fun u => u.name == name) then some [] else none := by
  induction urls generalizing h with
  | nil => cases hg : histGet h name <;> simp [hg]
  | cons u us ih =>
      simp only [List.foldl_cons, List.any_cons]
      by_cases hc : histContains h u.name = true
      · rw [if_pos hc, ih]
        cases hg : histGet h name with
        | some w => simp
        | none =>
            have hun : u.name ≠ name := by
              intro e
              rw [histContains_eq_isSome, e, hg] at hc
              exact Bool.false_ne_true hc
            simp [hun]
      · rw [if_neg hc, ih]
        by_cases hun : u.name = name
        · subst hun
          have hg : histGet h u.name = none := by
            cases hgo : histGet h u.name with
            | none => rfl
            | some w =>
                rw [histContains_eq_isSome, hgo] at hc
                exact absurd rfl hc
          rw [histGet_histSet_self, hg]
          simp
        · rw [histGet_histSet_ne h u.name name [] hun]
          cases hg : histGet h name <;> simp [hg, hun]

/-- C10: (re-)loading the configuration never discards accumulated results:
a name that already has a history window keeps exactly its old contents, a
configured name without a window gets a fresh empty one, and no other window
is created. -/
theorem C10_load_config_preserves_history (s : MonitoringService) (cfg : Config)
    (name : String) :
    histGet (load_config s cfg).status_history name =
      match histGet s.status_history name with
      | some w => some w
      | none => if cfg.urls.any (fun u => u.name == name) then some [] else none := by
  unfold load_config
  exact load_init_get cfg.urls s.status_history name

/-- Evaluating `cleanup_history` on a name whose window is `w`: the window
becomes `w` filtered to the entries newer than the retention cutoff. -/
theorem cleanup_history_get (s : MonitoringService) (name : String) (now : Int)
    (w : List StatusCheck) (h : histGet s.status_history name = some w) :
    histGet (cleanup_history s name now).status_history name =
      some (w.filter (fun c =>
        decide (now - 3600 * s.config.monitoring.history_retention_hours < c.timestamp))) := by
  have hc : histContains s.status_history name = true := by
    rw [histContains_eq_isSome, h]
    rfl
  unfold cleanup_history
  rw [if_pos hc]
  simp only [h, Option.getD_some]
  exact histGet_histSet_self _ _ _

/-- C2 counterexample: the current-status query does not run eviction. With
retention 1 hour, a sole history entry at time 0 and a read at time 7200,
`get_url_status` returns that entry's fields even though its timestamp 0
violates the retention bound (`0 ≤ 7200 - 3600`) at read time. -/
theorem C2_counterexample_status_reads_stale :
    get_url_status
      { config := { urls := [{ name := "e", url := "http://e" }], monitoring := sampleMonitoring },
        status_history :=
          [("e", [{ timestamp := 0, status := URLStatus.down, error := some "HTTP 500" }])],
        running := true } "e" 7200 =
      some { name := "e", url := "http://e", current_status := URLStatus.down,
             last_check := 0, response_time := none, error := some "HTTP 500" } ∧
    ¬ ((7200 : Int) - 3600 * 1 < 0) := by
  exact ⟨by decide, by decide⟩

/-- C2 (amended): the history query runs eviction for the window before its
contents are used, so every entry it returns satisfies the retention bound at
read time; the current-status query performs no eviction and may return a
most-recent entry violating the bound (see the counterexample). -/
theorem C2_history_read_evicts (s : MonitoringService) (name : String) (now : Int)
    (resp : URLHistoryResponse) (h : (get_url_history s name now).2 = some resp) :
    ∀ c ∈ resp.history,
      now - 3600 * s.config.monitoring.history_retention_hours < c.timestamp := by
  unfold get_url_history at h
  cases hf : s.config.urls.find? (fun u => u.name == name) with
  | none => rw [hf] at h; exact absurd h (by simp)
  | some url_config =>
      rw [hf] at h
      cases hg : histGet s.status_history name with
      | none => rw [hg] at h; exact absurd h (by simp)
      | some w =>
          rw [hg] at h
          simp only [Option.some.injEq] at h
          have hhist : resp.history =
              (histGet (cleanup_history s name now).status_history name).getD [] := by
            rw [← h]
          rw [cleanup_history_get s name now w hg] at hhist
          intro c hcmem
          rw [hhist] at hcmem
          simp only [Option.getD_some, List.mem_filter, decide_eq_true_eq] at hcmem
          exact hcmem.2

theorem C2_history_read_evicts_witness :
    (get_url_history
      { config := { urls := [{ name := "e", url := "http://e" }], monitoring := sampleMonitoring },
        status_history :=
          [("e", [{ timestamp := 0, status := URLStatus.down, error := some "HTTP 500" },
                  { timestamp := 4000, status := URLStatus.up, response_time := some 1 }])],
        running := true } "e" 7000).2 =
      some { name := "e", url := "http://e",
             history := [{ timestamp := 4000, status := URLStatus.up, response_time := some 1 }] } ∧
    ∀ c ∈ ({ name := "e", url := "http://e",
             history := [{ timestamp := 4000, status := URLStatus.up, response_time := some 1 }] :
               URLHistoryResponse }).history,
      (7000 : Int) - 3600 * 1 < c.timestamp :=
  ⟨by decide,
   C2_history_read_evicts
     { config := { urls := [{ name := "e", url := "http://e" }], monitoring := sampleMonitoring },
       status_history :=
         [("e", [{ timestamp := 0, status := URLStatus.down, error := some "HTTP 500" },
                 { timestamp := 4000, status := URLStatus.up, response_time := some 1 }])],
       running := true } "e" 7000
     { name := "e", url := "http://e",
       history := [{ timestamp := 4000, status := URLStatus.up, response_time := some 1 }] }
     (by decide)⟩

/-- C4: under the invariant that every registered URL name has a history
window, `get_url_status` returns `none` exactly when the name is unknown to
the registry; for a known endpoint with empty history it returns status
`unknown`, a synthesized `last_check = now` and no response time; and for a
non-empty history it returns exactly the fields of the most recently appended
check. -/
theorem C4_current_status (s : MonitoringService) (name : String) (now : Int)
    (hInv : ∀ u ∈ s.config.urls, (histGet s.status_history u.name).isSome = true) :
    (get_url_status s name now = none ↔ ∀ u ∈ s.config.urls, u.name ≠ name)
    ∧ (∀ u, s.config.urls.find? (fun v => v.name == name) = some u →
        (histGet s.status_history name = some [] →
          get_url_status s name now =
            some { name := name, url := u.url, current_status := URLStatus.unknown,
                   last_check := now, response_time := none, error := none })
        ∧ (∀ w latest, histGet s.status_history name = some (w ++ [latest]) →
            get_url_status s name now =
              some { name := name, url := u.url, current_status := latest.status,
                     last_check := latest.timestamp, response_time := latest.response_time,
                     error := latest.error })) := by
  constructor
  · constructor
    · intro hnone u hu hname
      cases hf : s.config.urls.find? (fun v => v.name == name) with
      | none =>
          have := List.find?_eq_none.mp hf u hu
          simp [hname] at this
      | some u' =>
          have hu'mem : u' ∈ s.config.urls := List.mem_of_find?_eq_some hf
          have hu'name : u'.name = name := by
            have := List.find?_some hf
            simpa using this
          have hsome := hInv u' hu'mem
          rw [hu'name] at hsome
          cases hg : histGet s.status_history name with
          | none => rw [hg] at hsome; exact absurd hsome (by simp)
          | some hist =>
              simp only [get_url_status, hf, hg] at hnone
              cases hl : hist.getLast? <;> simp [hl] at hnone
    · intro hall
      have hf : s.config.urls.find? (fun v => v.name == name) = none := by
        apply List.find?_eq_none.mpr
        intro u hu
        simp [hall u hu]
      unfold get_url_status
      rw [hf]
  · intro u hf
    constructor
    · intro hempty
      simp [get_url_status, hf, hempty]
    · intro w latest hlat
      have hl : (w ++ [latest]).getLast? = some latest := List.getLast?_concat w
      simp [get_url_status, hf, hlat, hl]

theorem C4_current_status_witness :
    (∀ u ∈ [{ name := "e", url := "http://e" : URLConfig }],
        (histGet [("e", [{ timestamp := 50, status := URLStatus.up,
                           response_time := some 2, error := none : StatusCheck }])]
          u.name).isSome = true) ∧
    ((get_url_status
        { config := { urls := [{ name := "e", url := "http://e" }],
                      monitoring := sampleMonitoring },
          status_history :=
            [("e", [{ timestamp := 50, status := URLStatus.up, response_time := some 2,
                      error := none }])],
          running := true } "e" 400 = none ↔
      ∀ u ∈ ({ config := { urls := [{ name := "e", url := "http://e" }],
                           monitoring := sampleMonitoring },
               status_history :=
                 [("e", [{ timestamp := 50, status := URLStatus.up, response_time := some 2,
                           error := none }])],
               running := true : MonitoringService }).config.urls, u.name ≠ "e")
    ∧ (∀ u, ({ config := { urls := [{ name := "e", url := "http://e" }],
                           monitoring := sampleMonitoring },
               status_history :=
                 [("e", [{ timestamp := 50, status := URLStatus.up, response_time := some 2,
                           error := none }])],
               running := true : MonitoringService }).config.urls.find?
            (fun v => v.name == "e") = some u →
        (histGet [("e", [{ timestamp := 50, status := URLStatus.up, response_time := some 2,
                           error := none : StatusCheck }])] "e" = some [] →
          get_url_status
            { config := { urls := [{ name := "e", url := "http://e" }],
                          monitoring := sampleMonitoring },
              status_history :=
                [("e", [{ timestamp := 50, status := URLStatus.up, response_time := some 2,
                          error := none }])],
              running := true } "e" 400 =
            some { name := "e", url := u.url, current_status := URLStatus.unknown,
                   last_check := 400, response_time := none, error := none })
        ∧ (∀ w latest,
            histGet [("e", [{ timestamp := 50, status := URLStatus.up, response_time := some 2,
                              error := none : StatusCheck }])] "e" = some (w ++ [latest]) →
            get_url_status
              { config := { urls := [{ name := "e", url := "http://e" }],
                            monitoring := sampleMonitoring },
                status_history :=
                  [("e", [{ timestamp := 50, status := URLStatus.up, response_time := some 2,
                            error := none }])],
                running := true } "e" 400 =
              some { name := "e", url := u.url, current_status := latest.status,
                     last_check := latest.timestamp, response_time := latest.response_time,
                     error := latest.error }))) :=
  ⟨by decide,
   C4_current_status
     { config := { urls := [{ name := "e", url := "http://e" }], monitoring := sampleMonitoring },
       status_history :=
         [("e", [{ timestamp := 50, status := URLStatus.up, response_time := some 2,
                   error := none }])],
       running := true } "e" 400 (by decide)⟩

/-- Appending a result that is at least as new as every existing entry, then
evicting (one iteration of the fan-in loop), keeps the window sorted by
timestamp. -/
theorem record_result_keeps_sorted (s : MonitoringService) (name : String)
    (w : List StatusCheck) (r : StatusCheck) (now : Int)
    (hget : histGet s.status_history name = some w)
    (hsorted : List.Sorted (fun a b : StatusCheck => a.timestamp ≤ b.timestamp) w)
    (hfresh : ∀ c ∈ w, c.timestamp ≤ r.timestamp) :
    ∃ s' w', record_result s name r now = .ok s' ∧
      histGet s'.status_history name = some w' ∧
      w'.Sublist (w ++ [r]) ∧
      List.Sorted (fun a b : StatusCheck => a.timestamp ≤ b.timestamp) w' := by
  have happ : List.Sorted (fun a b : StatusCheck => a.timestamp ≤ b.timestamp) (w ++ [r]) := by
    refine List.pairwise_append.mpr ⟨hsorted, List.sorted_singleton r, fun a ha b hb => ?_⟩
    rw [List.mem_singleton] at hb
    subst hb
    exact hfresh a ha
  have hget2 : histGet
      (histSet s.status_history name (w ++ [r])) name = some (w ++ [r]) :=
    histGet_histSet_self _ _ _
  have hcg := cleanup_history_get
    { s with status_history := histSet s.status_history name (w ++ [r]) } name now
    (w ++ [r]) hget2
  refine ⟨_, _, by simp only [record_result, hget], hcg, List.filter_sublist _, ?_⟩
  exact List.Pairwise.sublist (List.filter_sublist _) happ

/-- With a single registered URL, one fan-in pass is exactly one
`record_result` call for it. -/
theorem monitor_cycle_single_eq (s : MonitoringService) (u : URLConfig) (r : StatusCheck)
    (now : Int) (hurls : s.config.urls = [u]) :
    monitor_cycle s [r] now = record_result s u.name r now := by
  unfold monitor_cycle
  rw [hurls]
  simp only [List.zip_cons_cons, List.zip_nil_right, List.foldlM_cons, List.foldlM_nil]
  cases hr : record_result s u.name r now with
  | error e => rfl
  | ok a => rfl

/-- Two consecutive cycles on one endpoint with an initially empty window,
with the second result at least as new as the first and both cycles running
inside the retention window, produce the history `[r1, r2]`, ascending. -/
theorem two_cycles_ascending (s : MonitoringService) (u : URLConfig)
    (r1 r2 : StatusCheck) (now1 now2 : Int)
    (hurls : s.config.urls = [u])
    (hget : histGet s.status_history u.name = some [])
    (hts : r1.timestamp ≤ r2.timestamp)
    (h1 : now1 - 3600 * s.config.monitoring.history_retention_hours < r1.timestamp)
    (h2 : now2 - 3600 * s.config.monitoring.history_retention_hours < r1.timestamp)
    (h3 : now2 - 3600 * s.config.monitoring.history_retention_hours < r2.timestamp) :
    ∃ s1 s2, monitor_cycle s [r1] now1 = .ok s1 ∧ monitor_cycle s1 [r2] now2 = .ok s2 ∧
      histGet s2.status_history u.name = some [r1, r2] ∧
      List.Sorted (fun a b : StatusCheck => a.timestamp ≤ b.timestamp) [r1, r2] := by
  have hrec1 : record_result s u.name r1 now1 = .ok (cleanup_history
      { s with status_history := histSet s.status_history u.name ([] ++ [r1]) } u.name now1) := by
    simp only [record_result, hget]
  set S1 := cleanup_history
    { s with status_history := histSet s.status_history u.name ([] ++ [r1]) } u.name now1 with hS1
  have hS1config : S1.config = s.config := cleanup_history_config _ _ _
  have hS1urls : S1.config.urls = [u] := by rw [hS1config, hurls]
  have hS1get : histGet S1.status_history u.name = some [r1] := by
    rw [hS1, cleanup_history_get
      { s with status_history := histSet s.status_history u.name ([] ++ [r1]) } u.name now1
      ([] ++ [r1]) (histGet_histSet_self _ _ _)]
    simp [decide_eq_true h1]
  have hrec2 : record_result S1 u.name r2 now2 = .ok (cleanup_history
      { S1 with status_history := histSet S1.status_history u.name ([r1] ++ [r2]) }
      u.name now2) := by
    simp only [record_result, hS1get]
  set S2 := cleanup_history
    { S1 with status_history := histSet S1.status_history u.name ([r1] ++ [r2]) } u.name now2
    with hS2
  have hS2get : histGet S2.status_history u.name = some [r1, r2] := by
    rw [hS2, cleanup_history_get
      { S1 with status_history := histSet S1.status_history u.name ([r1] ++ [r2]) } u.name now2
      ([r1] ++ [r2]) (histGet_histSet_self _ _ _)]
    have hcfg : ({ S1 with
        status_history := histSet S1.status_history u.name ([r1] ++ [r2]) } :
          MonitoringService).config.monitoring = s.config.monitoring := by
      rw [show ({ S1 with
        status_history := histSet S1.status_history u.name ([r1] ++ [r2]) } :
          MonitoringService).config = S1.config from rfl, hS1config]
    rw [hcfg]
    simp [decide_eq_true h2, decide_eq_true h3]
  refine ⟨S1, S2, ?_, ?_, hS2get, ?_⟩
  · rw [monitor_cycle_single_eq s u r1 now1 hurls, hrec1]
  · rw [monitor_cycle_single_eq S1 u r2 now2 hS1urls, hrec2]
  · simp [List.sorted_cons, hts]

/-- C8: history windows stay ordered by timestamp ascending — a fan-in pass
appending a result at least as new as all existing entries keeps the window
sorted (with eviction preserving the relative order of kept entries, the
result being a sublist of the appended window), and two consecutive cycles on
one endpoint, starting from an empty window and staying inside the retention
window, yield a history of length 2 in ascending timestamp order. -/
theorem C8_history_sorted_ascending :
    (∀ (s : MonitoringService) (name : String) (w : List StatusCheck) (r : StatusCheck)
        (now : Int),
      histGet s.status_history name = some w →
      List.Sorted (fun a b : StatusCheck => a.timestamp ≤ b.timestamp) w →
      (∀ c ∈ w, c.timestamp ≤ r.timestamp) →
      ∃ s' w', record_result s name r now = .ok s' ∧
        histGet s'.status_history name = some w' ∧
        w'.Sublist (w ++ [r]) ∧
        List.Sorted (fun a b : StatusCheck => a.timestamp ≤ b.timestamp) w')
    ∧ (∀ (s : MonitoringService) (u : URLConfig) (r1 r2 : StatusCheck) (now1 now2 : Int),
      s.config.urls = [u] →
      histGet s.status_history u.name = some [] →
      r1.timestamp ≤ r2.timestamp →
      now1 - 3600 * s.config.monitoring.history_retention_hours < r1.timestamp →
      now2 - 3600 * s.config.monitoring.history_retention_hours < r1.timestamp →
      now2 - 3600 * s.config.monitoring.history_retention_hours < r2.timestamp →
      ∃ s1 s2, monitor_cycle s [r1] now1 = .ok s1 ∧ monitor_cycle s1 [r2] now2 = .ok s2 ∧
        histGet s2.status_history u.name = some [r1, r2] ∧
        List.Sorted (fun a b : StatusCheck => a.timestamp ≤ b.timestamp) [r1, r2]) :=
  ⟨record_result_keeps_sorted, two_cycles_ascending⟩

theorem C8_history_sorted_ascending_witness :
    ({ config := { urls := [{ name := "e", url := "http://e" }], monitoring := sampleMonitoring },
       status_history := [("e", [])], running := true :
         MonitoringService }).config.urls = [{ name := "e", url := "http://e" }] ∧
    histGet [("e", [])] "e" = some [] ∧
    (100 : Int) ≤ 200 ∧
    (150 : Int) - 3600 * 1 < 100 ∧
    (250 : Int) - 3600 * 1 < 100 ∧
    (250 : Int) - 3600 * 1 < 200 ∧
    (∃ s1 s2,
      monitor_cycle
        { config := { urls := [{ name := "e", url := "http://e" }],
                      monitoring := sampleMonitoring },
          status_history := [("e", [])], running := true }
        [{ timestamp := 100, status := URLStatus.up, response_time := some 1,
           error := none }] 150 = .ok s1 ∧
      monitor_cycle s1
        [{ timestamp := 200, status := URLStatus.up, response_time := some 1,
           error := none }] 250 = .ok s2 ∧
      histGet s2.status_history "e" =
        some [{ timestamp := 100, status := URLStatus.up, response_time := some 1,
                error := none },
              { timestamp := 200, status := URLStatus.up, response_time := some 1,
                error := none }] ∧
      List.Sorted (fun a b : StatusCheck => a.timestamp ≤ b.timestamp)
        [{ timestamp := 100, status := URLStatus.up, response_time := some 1, error := none },
         { timestamp := 200, status := URLStatus.up, response_time := some 1,
           error := none }]) :=
  ⟨rfl, by decide, by decide, by decide, by decide, by decide,
   C8_history_sorted_ascending.2
     { config := { urls := [{ name := "e", url := "http://e" }], monitoring := sampleMonitoring },
       status_history := [("e", [])], running := true }
     { name := "e", url := "http://e" }
     { timestamp := 100, status := URLStatus.up, response_time := some 1, error := none }
     { timestamp := 200, status := URLStatus.up, response_time := some 1, error := none }
     150 250 rfl (by decide) (by decide) (by decide) (by decide) (by decide)⟩

/-- C1: the code at the failing input. Before removal the registry held the
endpoints `a` and `b`, and the in-flight cycle produced the results
`[ra, rb]` for them; `a` (and its window) was removed during the fan-in
await. The fan-in then zips the live registry `[b]` with `[ra, rb]`
positionally, so `b` receives `a`'s result `ra` — the store changes and the
removed endpoint's result is recorded under the wrong name instead of being
silently dropped. A direct store append for the removed name `a` would raise
`KeyError`, not no-op. -/
theorem C1_inflight_removal_misattributes :
    monitor_cycle
      { config := { urls := [{ name := "b", url := "http://b" }],
                    monitoring := sampleMonitoring },
        status_history := [("b", [])], running := true }
      [{ timestamp := 100, status := URLStatus.down, response_time := none,
         error := some "Timeout" },
       { timestamp := 100, status := URLStatus.up, response_time := some 1, error := none }]
      200 =
      .ok { config := { urls := [{ name := "b", url := "http://b" }],
                        monitoring := sampleMonitoring },
            status_history :=
              [("b", [{ timestamp := 100, status := URLStatus.down, response_time := none,
                        error := some "Timeout" }])],
            running := true } ∧
    record_result
      { config := { urls := [{ name := "b", url := "http://b" }],
                    monitoring := sampleMonitoring },
        status_history := [("b", [])], running := true } "a"
      { timestamp := 100, status := URLStatus.down, response_time := none,
        error := some "Timeout" } 200 =
      .error "KeyError" := by
  exact ⟨by rfl, by rfl⟩

/-- C3: modelled from the spec (the implementation of `add_url_monitor` is
not among the provided sources). Adding an endpoint fails with the
duplicate-name error when the name is registered and with the validation
error when the URL does not match `^https?://`, leaving the whole service
state (registry and history windows) unchanged in both cases; on success it
appends the endpoint to the registry, creates an empty history window for it,
touches no other window, and returns the new endpoint. -/
theorem C3_add_endpoint_errors_and_success (s : MonitoringService) (name url : String) :
    (s.config.urls.any (fun u => u.name == name) = true →
      add_url_monitor s name url =
        (s, .error ("URL monitor with name " ++ name ++ " already exists")))
    ∧ (s.config.urls.any (fun u => u.name == name) = false → validUrl url = false →
      add_url_monitor s name url = (s, .error "ValidationError"))
    ∧ (s.config.urls.any (fun u => u.name == name) = false → validUrl url = true →
      (add_url_monitor s name url).1.config.urls =
        s.config.urls ++ [{ name := name, url := url }]
      ∧ histGet (add_url_monitor s name url).1.status_history name = some []
      ∧ (∀ m, m ≠ name →
          histGet (add_url_monitor s name url).1.status_history m = histGet s.status_history m)
      ∧ (add_url_monitor s name url).2 = .ok { name := name, url := url }) := by
  refine ⟨fun hdup => ?_, fun hdup hval => ?_, fun hdup hval => ?_⟩
  · simp [add_url_monitor, hdup]
  · simp [add_url_monitor, hdup, hval]
  · have h1 : add_url_monitor s name url =
        ({ s with
           config := { s.config with urls := s.config.urls ++ [{ name := name, url := url }] },
           status_history := histSet s.status_history name [] },
         .ok { name := name, url := url }) := by
      simp [add_url_monitor, hdup, hval]
    rw [h1]
    exact ⟨rfl, histGet_histSet_self _ _ _,
      fun m hm => histGet_histSet_ne _ _ _ _ (Ne.symm hm), rfl⟩

theorem C3_add_endpoint_errors_and_success_witness :
    ({ config := { urls := [{ name := "a", url := "http://a" }],
                   monitoring := sampleMonitoring },
       status_history := [("a", [])], running := false :
         MonitoringService }).config.urls.any (fun u => u.name == "b") = false ∧
    validUrl "https://b.example" = true ∧
    ((add_url_monitor
        { config := { urls := [{ name := "a", url := "http://a" }],
                      monitoring := sampleMonitoring },
          status_history := [("a", [])], running := false } "b"
        "https://b.example").1.config.urls =
      [{ name := "a", url := "http://a" }] ++ [{ name := "b", url := "https://b.example" }]
    ∧ histGet (add_url_monitor
        { config := { urls := [{ name := "a", url := "http://a" }],
                      monitoring := sampleMonitoring },
          status_history := [("a", [])], running := false } "b"
        "https://b.example").1.status_history "b" = some []
    ∧ (∀ m, m ≠ "b" →
        histGet (add_url_monitor
          { config := { urls := [{ name := "a", url := "http://a" }],
                        monitoring := sampleMonitoring },
            status_history := [("a", [])], running := false } "b"
          "https://b.example").1.status_history m = histGet [("a", [])] m)
    ∧ (add_url_monitor
        { config := { urls := [{ name := "a", url := "http://a" }],
                      monitoring := sampleMonitoring },
          status_history := [("a", [])], running := false } "b"
        "https://b.example").2 = .ok { name := "b", url := "https://b.example" }) :=
  ⟨by decide, by decide,
   (C3_add_endpoint_errors_and_success
     { config := { urls := [{ name := "a", url := "http://a" }],
                   monitoring := sampleMonitoring },
       status_history := [("a", [])], running := false } "b" "https://b.example").2.2
     (by decide) (by decide)⟩
